import Mathlib

/-!
Verification of the OAuth router core of fastapi-users
(fastapi_users/router/oauth.py): the state-token codec, the authorize
handler and the callback handler. External collaborators (oauth client,
account resolver, authentication backend) are modelled as function
parameters; the delegated calls the handlers make are recorded in an
ordered event list so that ordering and framing properties can be stated.
-/

set_option autoImplicit false

namespace FastapiUsers

/-- Modelled from the spec: STATE_TOKEN_AUDIENCE from fastapi_users/settings.py
is not among the sources; the spec names the state-token audience value
oauth-state. -/
def STATE_TOKEN_AUDIENCE : String := "oauth-state"

/-- Modelled from the spec: TOKEN_LIFETIME from fastapi_users/settings.py is
not among the sources; the configured default state-token lifetime in
seconds. -/
def TOKEN_LIFETIME : Nat := 3600

/-- Modelled from the spec: ErrorCode.LOGIN_BAD_CREDENTIALS from
fastapi_users/router/common.py is not among the sources; the stable
machine-readable error code used for the inactive-account rejection. -/
def LOGIN_BAD_CREDENTIALS : String := "LOGIN_BAD_CREDENTIALS"

/-- The HTTP 400 status code (status.HTTP_400_BAD_REQUEST). -/
def HTTP_400_BAD_REQUEST : Nat := 400

/-- Lookup in a Python dict of strings, modelled as an association list:
the value of the first matching key, if any. -/
def dictGet (k : String) : List (String × String) → Option String
  | [] => none
  | (k0, v0) :: rest => if k0 = k then some v0 else dictGet k rest

/-- Python dict item assignment d[k] = v: overwrite the value in place when
the key is already present, append the item at the end otherwise. -/
def dictSet (k v : String) : List (String × String) → List (String × String)
  | [] => [(k, v)]
  | (k0, v0) :: rest =>
    if k0 = k then (k, v) :: rest else (k0, v0) :: dictSet k v rest

/-- Modelled from the spec: a state token is an opaque signed string, modelled
symbolically as either a well-formed signed token carrying its payload claims,
the secret it was signed with and its expiry instant, or an arbitrary
malformed string. -/
inductive StateToken where
  | signed (claims : List (String × String)) (secret : String) (exp : Nat)
  | malformed (raw : String)
deriving DecidableEq, Repr

/-- Modelled from the spec: the single error kind raised by jwt verification
(the spec calls it InvalidStateToken); every failure, whatever its internal
reason, collapses to this one kind, matching the single except clause at
router/oauth.py line 128. -/
inductive DecodeError where
  | malformedToken
  | badSignature
  | expired
  | missingAudience
  | badAudience
deriving DecidableEq, Repr

/-- Modelled from the spec: generate_jwt from fastapi_users/jwt.py is not among
the sources; it signs the payload with the secret and sets expiry to
now + lifetime seconds. -/
def generate_jwt (data : List (String × String)) (secret : String)
    (lifetime_seconds : Nat) (now : Nat) : StateToken :=
  .signed data secret (now + lifetime_seconds)

/-- Modelled from the spec: decode_jwt from fastapi_users/jwt.py is not among
the sources; it checks the signature, the expiry, and that the aud claim is
one of the accepted audiences, and any single failure collapses to the one
DecodeError kind. -/
def decode_jwt (token : StateToken) (secret : String) (audience : List String)
    (now : Nat) : Except DecodeError (List (String × String)) :=
  match token with
  | .malformed _ => .error .malformedToken
  | .signed claims sig exp =>
    if sig ≠ secret then .error .badSignature
    else if exp ≤ now then .error .expired
    else
      match dictGet "aud" claims with
      | none => .error .missingAudience
      | some a => if a ∈ audience then .ok claims else .error .badAudience

/-- Embeds generate_state_token (router/oauth.py lines 22-26): it assigns the
aud key of the data dict to STATE_TOKEN_AUDIENCE and encodes the dict as a
jwt. Python dicts are passed by reference and the assignment mutates the
argument of the caller, so the result is the pair of the issued token and the
final, caller-visible value of the data argument. -/
def generate_state_token (data : List (String × String)) (secret : String)
    (lifetime_seconds : Nat) (now : Nat) :
    StateToken × List (String × String) :=
  let data2 := dictSet "aud" STATE_TOKEN_AUDIENCE data
  (generate_jwt data2 secret lifetime_seconds now, data2)

/-- The payload claims of a well-formed signed token. -/
def payloadOf : StateToken → Option (List (String × String))
  | .signed claims _ _ => some claims
  | .malformed _ => none

/-- The provider token dict produced by the code exchange: an access_token
plus optional expires_at and refresh_token entries. -/
structure OAuth2Token where
  access_token : String
  expires_at : Option Nat
  refresh_token : Option String
deriving DecidableEq, Repr

/-- Embeds models.BaseOAuthAccount as the callback handler constructs it
(router/oauth.py lines 131-138). -/
structure BaseOAuthAccount where
  oauth_name : String
  access_token : String
  expires_at : Option Nat
  refresh_token : Option String
  account_id : String
  account_email : String
deriving DecidableEq, Repr

/-- The external user entity: the callback handler only reads is_active; the
id field stands for the identity handed to the authentication backend. -/
structure User where
  id : Nat
  is_active : Bool
deriving DecidableEq, Repr

/-- The argument record of the single oauth_client.get_authorization_url call
the authorize handler makes (router/oauth.py lines 74-82). extras_params is a
Python dict whose values may be None, hence Option String. -/
structure GetAuthorizationUrlCall where
  redirect_uri : String
  state : StateToken
  scopes : Option (List String)
  extras_params : List (String × Option String)
deriving DecidableEq, Repr

/-- The response of the authorize handler: either a RedirectResponse or the
JSON OAuth2AuthorizeResponse carrying the authorization_url field. -/
inductive AuthorizeResponse where
  | redirectResponse (url : String)
  | oauth2AuthorizeResponse (authorization_url : String)
deriving DecidableEq, Repr

/-- Whether the authorize response is an HTTP redirect. -/
def AuthorizeResponse.isRedirect : AuthorizeResponse → Bool
  | .redirectResponse _ => true
  | .oauth2AuthorizeResponse _ => false

/-- The authorization url carried by the authorize response, in either
shape. -/
def AuthorizeResponse.url : AuthorizeResponse → String
  | .redirectResponse u => u
  | .oauth2AuthorizeResponse u => u

/-- Embeds the authorize handler (router/oauth.py lines 57-86).
initial_redirect_url and initial_follow_redirect are the router configuration;
callback_route_url stands for request.url_for of the callback route;
get_authorization_url is the external oauth client. The handler returns its
response together with the argument record of the one client call it makes. -/
def authorize (initial_redirect_url : Option String)
    (initial_follow_redirect : Bool) (state_secret : String)
    (callback_route_url : String)
    (get_authorization_url : GetAuthorizationUrlCall → String)
    (redirect_url : Option String) (follow_redirect : Bool)
    (scopes : Option (List String)) (code_challenge : Option String)
    (code_challenge_method : Option String) (now : Nat) :
    AuthorizeResponse × GetAuthorizationUrlCall :=
  let authorize_redirect_url :=
    match redirect_url with
    | some u => u
    | none =>
      match initial_redirect_url with
      | some u => u
      | none => callback_route_url
  let state_data : List (String × String) := []
  let state := (generate_state_token state_data state_secret TOKEN_LIFETIME now).1
  let call : GetAuthorizationUrlCall :=
    { redirect_uri := authorize_redirect_url
      state := state
      scopes := scopes
      extras_params :=
        [("code_challenge", code_challenge),
         ("code_challenge_method", code_challenge_method)] }
  let authorization_url := get_authorization_url call
  if follow_redirect || initial_follow_redirect then
    (.redirectResponse authorization_url, call)
  else
    (.oauth2AuthorizeResponse authorization_url, call)

/-- The external collaborators of the callback handler: get_id_email of the
oauth client, oauth_callback of the user manager (the account resolver) and
login of the authentication backend; oauth_name is oauth_client.name. -/
structure CallbackEnv where
  oauth_name : String
  get_id_email : String → String × String
  oauth_callback : BaseOAuthAccount → User
  login : User → String

/-- One delegated external call of the callback handler, recorded in the order
the calls are made. -/
inductive CallbackEvent where
  | getIdEmail (access_token : String)
  | oauthCallback (account : BaseOAuthAccount)
  | login (user : User)
deriving DecidableEq, Repr

/-- The outcome of the callback handler: an HTTPException with a status code
and an optional detail, or the login response of the backend. -/
inductive CallbackResult where
  | httpException (status_code : Nat) (detail : Option String)
  | loginResponse (body : String)
deriving DecidableEq, Repr

/-- Embeds the new_oauth_account construction (router/oauth.py lines
131-138). -/
def new_oauth_account (oauth_name : String) (token : OAuth2Token)
    (id_email : String × String) : BaseOAuthAccount :=
  { oauth_name := oauth_name
    access_token := token.access_token
    expires_at := token.expires_at
    refresh_token := token.refresh_token
    account_id := id_email.1
    account_email := id_email.2 }

/-- Embeds the callback handler (router/oauth.py lines 112-149): resolve the
provider identity, verify the state token (any DecodeError becomes a bare
400), build the oauth account record, delegate to the account resolver,
reject an inactive user with a 400 carrying LOGIN_BAD_CREDENTIALS, and
otherwise delegate to the backend login. The returned event list records the
delegated external calls in order. -/
def callback (env : CallbackEnv) (state_secret : String) (token : OAuth2Token)
    (state : StateToken) (now : Nat) : CallbackResult × List CallbackEvent :=
  let id_email := env.get_id_email token.access_token
  let events0 := [CallbackEvent.getIdEmail token.access_token]
  match decode_jwt state state_secret [STATE_TOKEN_AUDIENCE] now with
  | .error _ => (.httpException HTTP_400_BAD_REQUEST none, events0)
  | .ok _ =>
    let account := new_oauth_account env.oauth_name token id_email
    let user := env.oauth_callback account
    let events1 := events0 ++ [CallbackEvent.oauthCallback account]
    if !user.is_active then
      (.httpException HTTP_400_BAD_REQUEST (some LOGIN_BAD_CREDENTIALS),
        events1)
    else
      (.loginResponse (env.login user), events1 ++ [CallbackEvent.login user])

/-- Whether the trace contains a call to the account resolver. -/
def resolverInvoked (events : List CallbackEvent) : Bool :=
  events.any fun e =>
    match e with
    | .oauthCallback _ => true
    | _ => false

/-- Whether the trace contains a call to the backend login operation. -/
def loginInvoked (events : List CallbackEvent) : Bool :=
  events.any fun e =>
    match e with
    | .login _ => true
    | _ => false

/-- Whether the trace contains the provider identity lookup. -/
def idEmailInvoked (events : List CallbackEvent) : Bool :=
  events.any fun e =>
    match e with
    | .getIdEmail _ => true
    | _ => false

/-- Sample collaborators for the closed witnesses: a resolver that returns an
active user. -/
def sampleEnv : CallbackEnv :=
  { oauth_name := "google"
    get_id_email := fun _ => ("aid", "user@example.com")
    oauth_callback := fun _ => { id := 1, is_active := true }
    login := fun u => "session:" ++ toString u.id }

/-- Sample collaborators whose resolver returns an inactive user. -/
def sampleInactiveEnv : CallbackEnv :=
  { sampleEnv with oauth_callback := fun _ => { id := 2, is_active := false } }

/-- A sample provider token. -/
def sampleToken : OAuth2Token :=
  { access_token := "atok", expires_at := none, refresh_token := none }

/-- After setting key k, looking up k yields the value just written. -/
theorem dictGet_dictSet_self (k v : String) (d : List (String × String)) :
    dictGet k (dictSet k v d) = some v := by
  induction d with
  | nil => simp [dictGet, dictSet]
  | cons hd tl ih =>
    obtain ⟨k0, v0⟩ := hd
    by_cases h : k0 = k
    · simp [dictGet, dictSet, h]
    · simp [dictGet, dictSet, h, ih]

/-- Setting key k leaves the binding of every other key unchanged. -/
theorem dictGet_dictSet_ne (k k2 v : String) (d : List (String × String))
    (h : k2 ≠ k) : dictGet k2 (dictSet k v d) = dictGet k2 d := by
  induction d with
  | nil => simp [dictGet, dictSet, Ne.symm h]
  | cons hd tl ih =>
    obtain ⟨k0, v0⟩ := hd
    by_cases h0 : k0 = k
    · subst h0
      simp [dictGet, dictSet, Ne.symm h]
    · simp [dictGet, dictSet, h0, ih]

/-- C1: whenever state-token verification fails, whatever the internal reason,
the callback handler answers with the one generic HTTP 400 and no detail in
the body; the failure reason is never distinguished to the caller. -/
theorem callback_invalid_state_uniform_400 (env : CallbackEnv)
    (state_secret : String) (token : OAuth2Token) (state : StateToken)
    (now : Nat) (e : DecodeError)
    (h : decode_jwt state state_secret [STATE_TOKEN_AUDIENCE] now =
      .error e) :
    (callback env state_secret token state now).1 =
      CallbackResult.httpException HTTP_400_BAD_REQUEST none := by
  simp [callback, h]

/-- Witness for C1 at a malformed state token and concrete collaborators. -/
theorem callback_invalid_state_uniform_400_witness :
    (callback sampleEnv "secret" sampleToken (StateToken.malformed "x") 0).1 =
      CallbackResult.httpException HTTP_400_BAD_REQUEST none :=
  callback_invalid_state_uniform_400 sampleEnv "secret" sampleToken
    (StateToken.malformed "x") 0 DecodeError.malformedToken rfl

/-- C2: when state-token verification fails the handler terminates before the
account resolver is ever invoked: the recorded trace contains no
oauth_callback call and the request ends in the client error. -/
theorem callback_invalid_state_no_resolver (env : CallbackEnv)
    (state_secret : String) (token : OAuth2Token) (state : StateToken)
    (now : Nat) (e : DecodeError)
    (h : decode_jwt state state_secret [STATE_TOKEN_AUDIENCE] now =
      .error e) :
    resolverInvoked (callback env state_secret token state now).2 = false ∧
      (callback env state_secret token state now).1 =
        CallbackResult.httpException HTTP_400_BAD_REQUEST none := by
  simp [callback, h, resolverInvoked]

/-- Witness for C2 at an expired state token and concrete collaborators. -/
theorem callback_invalid_state_no_resolver_witness :
    resolverInvoked
        (callback sampleEnv "secret" sampleToken
          (generate_state_token [] "secret" 5 0).1 100).2 = false ∧
      (callback sampleEnv "secret" sampleToken
          (generate_state_token [] "secret" 5 0).1 100).1 =
        CallbackResult.httpException HTTP_400_BAD_REQUEST none :=
  callback_invalid_state_no_resolver sampleEnv "secret" sampleToken
    (generate_state_token [] "secret" 5 0).1 100 DecodeError.expired
    rfl

/-- C10: the provider identity lookup comes before state verification: even a
request whose state token is invalid first triggers the external get_id_email
call, recorded as the first event, and only then is rejected. -/
theorem callback_id_email_before_state (env : CallbackEnv)
    (state_secret : String) (token : OAuth2Token) (state : StateToken)
    (now : Nat) (e : DecodeError)
    (h : decode_jwt state state_secret [STATE_TOKEN_AUDIENCE] now =
      .error e) :
    (callback env state_secret token state now).2.head? =
        some (CallbackEvent.getIdEmail token.access_token) ∧
      (callback env state_secret token state now).1 =
        CallbackResult.httpException HTTP_400_BAD_REQUEST none := by
  simp [callback, h]

/-- Witness for C10 at a state token signed with the wrong secret. -/
theorem callback_id_email_before_state_witness :
    (callback sampleEnv "secret" sampleToken
        (generate_state_token [] "other" 3600 0).1 10).2.head? =
        some (CallbackEvent.getIdEmail sampleToken.access_token) ∧
      (callback sampleEnv "secret" sampleToken
          (generate_state_token [] "other" 3600 0).1 10).1 =
        CallbackResult.httpException HTTP_400_BAD_REQUEST none :=
  callback_id_email_before_state sampleEnv "secret" sampleToken
    (generate_state_token [] "other" 3600 0).1 10 DecodeError.badSignature
    rfl

/-- C3: when the account resolver returns an inactive user the callback
handler answers HTTP 400 with detail LOGIN_BAD_CREDENTIALS and the backend
login operation is never invoked for that request. -/
theorem callback_inactive_gate (env : CallbackEnv) (state_secret : String)
    (token : OAuth2Token) (state : StateToken) (now : Nat)
    (payload : List (String × String))
    (hok : decode_jwt state state_secret [STATE_TOKEN_AUDIENCE] now =
      .ok payload)
    (hinactive : (env.oauth_callback (new_oauth_account env.oauth_name token
      (env.get_id_email token.access_token))).is_active = false) :
    (callback env state_secret token state now).1 =
        CallbackResult.httpException HTTP_400_BAD_REQUEST
          (some LOGIN_BAD_CREDENTIALS) ∧
      loginInvoked (callback env state_secret token state now).2 = false := by
  simp [callback, hok, hinactive, loginInvoked]

/-- Witness for C3 at a valid state token and a resolver returning an
inactive user. -/
theorem callback_inactive_gate_witness :
    (callback sampleInactiveEnv "secret" sampleToken
        (generate_state_token [] "secret" 3600 0).1 10).1 =
        CallbackResult.httpException HTTP_400_BAD_REQUEST
          (some LOGIN_BAD_CREDENTIALS) ∧
      loginInvoked
        (callback sampleInactiveEnv "secret" sampleToken
          (generate_state_token [] "secret" 3600 0).1 10).2 = false :=
  callback_inactive_gate sampleInactiveEnv "secret" sampleToken
    (generate_state_token [] "secret" 3600 0).1 10
    [("aud", STATE_TOKEN_AUDIENCE)] rfl rfl

/-- C5: the redirect target the authorize handler hands to the provider
client is resolved with strict precedence: the per-request redirect_url when
present, else the configured initial_redirect_url when present, else the
computed url of the callback route of this flow. -/
theorem authorize_redirect_precedence (initial_redirect_url : Option String)
    (initial_follow_redirect : Bool)
    (state_secret callback_route_url : String)
    (get_authorization_url : GetAuthorizationUrlCall → String)
    (redirect_url : Option String) (follow_redirect : Bool)
    (scopes : Option (List String))
    (code_challenge code_challenge_method : Option String) (now : Nat) :
    (authorize initial_redirect_url initial_follow_redirect state_secret
        callback_route_url get_authorization_url redirect_url follow_redirect
        scopes code_challenge code_challenge_method now).2.redirect_uri =
      redirect_url.getD (initial_redirect_url.getD callback_route_url) := by
  cases redirect_url <;> cases initial_redirect_url <;>
    simp [authorize, apply_ite]

/-- C6 counterexample: with no PKCE parameters supplied, the authorize
handler still passes both PKCE keys to get_authorization_url inside
extras_params, bound to null values, instead of omitting them. -/
theorem authorize_pkce_not_omitted :
    (authorize none false "secret" "http://app/callback" (fun _ => "u") none
          false none none none 0).2.extras_params =
        [("code_challenge", (none : Option String)),
         ("code_challenge_method", (none : Option String))] ∧
      ("code_challenge", (none : Option String)) ∈
        (authorize none false "secret" "http://app/callback" (fun _ => "u")
          none false none none none 0).2.extras_params := by
  constructor
  · rfl
  · simp [authorize]

/-- C6 amended: the extras_params dict passed to get_authorization_url always
holds exactly the two PKCE keys, each bound to the optional value supplied
per request; an absent PKCE parameter is passed as a null value rather than
omitted. -/
theorem authorize_pkce_passed_as_null (initial_redirect_url : Option String)
    (initial_follow_redirect : Bool)
    (state_secret callback_route_url : String)
    (get_authorization_url : GetAuthorizationUrlCall → String)
    (redirect_url : Option String) (follow_redirect : Bool)
    (scopes : Option (List String))
    (code_challenge code_challenge_method : Option String) (now : Nat) :
    (authorize initial_redirect_url initial_follow_redirect state_secret
        callback_route_url get_authorization_url redirect_url follow_redirect
        scopes code_challenge code_challenge_method now).2.extras_params =
      [("code_challenge", code_challenge),
       ("code_challenge_method", code_challenge_method)] := by
  simp [authorize, apply_ite]

/-- C9: the authorize handler responds with an HTTP redirect exactly when the
per-request follow_redirect flag or the configured initial_follow_redirect is
set, and in both shapes the response carries the authorization url the
provider client returned for the one call the handler made. -/
theorem authorize_response_shape (initial_redirect_url : Option String)
    (initial_follow_redirect : Bool)
    (state_secret callback_route_url : String)
    (get_authorization_url : GetAuthorizationUrlCall → String)
    (redirect_url : Option String) (follow_redirect : Bool)
    (scopes : Option (List String))
    (code_challenge code_challenge_method : Option String) (now : Nat) :
    (authorize initial_redirect_url initial_follow_redirect state_secret
          callback_route_url get_authorization_url redirect_url
          follow_redirect scopes code_challenge code_challenge_method
          now).1.isRedirect =
        (follow_redirect || initial_follow_redirect) ∧
      (authorize initial_redirect_url initial_follow_redirect state_secret
          callback_route_url get_authorization_url redirect_url
          follow_redirect scopes code_challenge code_challenge_method
          now).1.url =
        get_authorization_url
          (authorize initial_redirect_url initial_follow_redirect
            state_secret callback_route_url get_authorization_url
            redirect_url follow_redirect scopes code_challenge
            code_challenge_method now).2 := by
  cases follow_redirect <;> cases initial_follow_redirect <;>
    simp [authorize, AuthorizeResponse.isRedirect, AuthorizeResponse.url]

/-- C4 counterexample: the round trip as claimed fails for an audience other
than STATE_TOKEN_AUDIENCE, because generate_state_token overwrites any
caller-supplied aud entry: issuing from a mapping that requests the audience
TEST_AUDIENCE and verifying against that audience does not return a payload
at all, it fails with the audience error. -/
theorem state_token_roundtrip_counterexample :
    decode_jwt
        (generate_state_token
          [("foo", "bar"), ("aud", "TEST_AUDIENCE")] "secret" 3600 0).1
        "secret" ["TEST_AUDIENCE"] 10 =
      Except.error DecodeError.badAudience := rfl

/-- C4 amended: before expiry the round trip holds with the audience that
generate_state_token actually stamps: decoding its output against
STATE_TOKEN_AUDIENCE yields a payload whose aud claim is
STATE_TOKEN_AUDIENCE and whose other fields are exactly the custom data;
the fully general round trip over an arbitrary audience a holds for the
underlying generate_jwt and decode_jwt pair, as test_generate_decode_jwt
exercises it. -/
theorem state_token_roundtrip (d : List (String × String))
    (a secret : String) (lifetime now now2 : Nat)
    (h : now2 < now + lifetime) :
    (∃ p, decode_jwt (generate_state_token d secret lifetime now).1 secret
          [STATE_TOKEN_AUDIENCE] now2 = Except.ok p ∧
        dictGet "aud" p = some STATE_TOKEN_AUDIENCE ∧
        ∀ k, k ≠ "aud" → dictGet k p = dictGet k d) ∧
      (∃ p, decode_jwt (generate_jwt (dictSet "aud" a d) secret lifetime now)
          secret [a] now2 = Except.ok p ∧
        dictGet "aud" p = some a ∧
        ∀ k, k ≠ "aud" → dictGet k p = dictGet k d) := by
  have hexp : ¬ now + lifetime ≤ now2 := Nat.not_le.mpr h
  constructor
  · refine ⟨dictSet "aud" STATE_TOKEN_AUDIENCE d, ?_,
      dictGet_dictSet_self "aud" STATE_TOKEN_AUDIENCE d,
      fun k hk => dictGet_dictSet_ne "aud" k STATE_TOKEN_AUDIENCE d hk⟩
    simp [generate_state_token, generate_jwt, decode_jwt, hexp,
      dictGet_dictSet_self]
  · refine ⟨dictSet "aud" a d, ?_,
      dictGet_dictSet_self "aud" a d,
      fun k hk => dictGet_dictSet_ne "aud" k a d hk⟩
    simp [generate_jwt, decode_jwt, hexp, dictGet_dictSet_self]

/-- Witness for the amended C4 at a concrete mapping, audience, lifetime and
verification instant before expiry. -/
theorem state_token_roundtrip_witness :
    (10 : Nat) < 0 + 3600 ∧
      ((∃ p, decode_jwt
            (generate_state_token [("foo", "bar")] "secret" 3600 0).1
            "secret" [STATE_TOKEN_AUDIENCE] 10 = Except.ok p ∧
          dictGet "aud" p = some STATE_TOKEN_AUDIENCE ∧
          ∀ k, k ≠ "aud" →
            dictGet k p = dictGet k [("foo", "bar")]) ∧
        (∃ p, decode_jwt
            (generate_jwt (dictSet "aud" "TEST_AUDIENCE" [("foo", "bar")])
              "secret" 3600 0) "secret" ["TEST_AUDIENCE"] 10 =
            Except.ok p ∧
          dictGet "aud" p = some "TEST_AUDIENCE" ∧
          ∀ k, k ≠ "aud" →
            dictGet k p = dictGet k [("foo", "bar")])) :=
  ⟨by decide,
    state_token_roundtrip [("foo", "bar")] "TEST_AUDIENCE" "secret" 3600 0 10
      (by decide)⟩

/-- C7: the payload of every issued state token carries the audience claim
STATE_TOKEN_AUDIENCE, whatever custom data the caller supplied, a conflicting
aud entry included. -/
theorem generate_state_token_aud (d : List (String × String))
    (secret : String) (lifetime now : Nat) :
    (payloadOf (generate_state_token d secret lifetime now).1).bind
        (dictGet "aud") = some STATE_TOKEN_AUDIENCE := by
  simp [generate_state_token, generate_jwt, payloadOf, Option.bind,
    dictGet_dictSet_self]

/-- C8 counterexample: generate_state_token mutates the mapping of its
caller: called on the empty mapping, it leaves an aud entry behind in the
caller-visible argument. -/
theorem generate_state_token_mutates :
    (generate_state_token [] "secret" 3600 0).2 ≠ [] := by
  simp [generate_state_token, generate_jwt, dictSet]

/-- C8 amended: the only caller-visible effect of generate_state_token on its
data argument is setting the aud key to STATE_TOKEN_AUDIENCE; the binding of
every other key is unchanged, and nothing else is added or removed. -/
theorem generate_state_token_frame (d : List (String × String))
    (secret : String) (lifetime now : Nat) (k : String) :
    dictGet k (generate_state_token d secret lifetime now).2 =
      if k = "aud" then some STATE_TOKEN_AUDIENCE else dictGet k d := by
  by_cases h : k = "aud"
  · subst h
    simp [generate_state_token, dictGet_dictSet_self]
  · simp [generate_state_token, h, dictGet_dictSet_ne "aud" k _ d h]

end FastapiUsers
